import Mathlib

/-!
Verification development for the ClipForge native backend
(`src-tauri/src/lib.rs`): a shallow embedding of the recording-session
process manager (FFmpeg argument builder, session registry, start/stop
supervision) and of the audio-device-list parser, together with theorems
about the embedded definitions.

Conventions of the embedding:
* Rust `String` values are modelled by Lean `String`; the device-list
  parser additionally works on `List Char` (the character content of a
  line), which matches the byte-index slicing of the Rust code on the
  ASCII delimiters it slices at.
* Machine integers (`u32`) are modelled by `Nat`, with the `u32` range
  bound made explicit where the Rust code can overflow (string parsing).
* All I/O effects (spawning, signalling, waiting, file-system checks,
  timestamps, temp-dir resolution) are modelled by explicit environment
  records whose fields record the outcome the operating system would
  deliver; the embedded functions are pure state transformers over the
  session registry.
-/

namespace ClipForge

/-! ## Generic list helpers used by the embedding -/

/-- Does `pat` occur at the head of `l`?  (Bool-valued prefix test on
character lists.) -/
def isPrefixSeq : List Char → List Char → Bool
  | [], _ => true
  | _ :: _, [] => false
  | a :: as, b :: bs => a = b && isPrefixSeq as bs

/-- Does `pat` occur contiguously anywhere inside `l`?  This models Rust
`str::contains` for the ASCII markers the parser scans for. -/
def occursIn : List Char → List Char → Bool
  | pat, [] => pat.isEmpty
  | pat, c :: rest => isPrefixSeq pat (c :: rest) || occursIn pat rest

/-- Bool-valued character membership; models Rust `str::contains(char)`. -/
def containsChar (l : List Char) (c : Char) : Bool :=
  l.any (fun x => x = c)

/-- Index of the last occurrence of `c` in `l`; models Rust `str::rfind`. -/
def lastIdxOf : List Char → Char → Option Nat
  | [], _ => none
  | x :: xs, c =>
    match lastIdxOf xs c with
    | some i => some (i + 1)
    | none => if x = c then some 0 else none

/-- Index of the first occurrence of `c` in `l`; models Rust `str::find`. -/
def firstIdxOf : List Char → Char → Option Nat
  | [], _ => none
  | x :: xs, c => if x = c then some 0 else (firstIdxOf xs c).map (· + 1)

/-- Both-ends whitespace trim on character lists; models Rust `str::trim`. -/
def trimA (l : List Char) : List Char :=
  ((l.dropWhile Char.isWhitespace).reverse.dropWhile Char.isWhitespace).reverse

/-- Numeric value of a decimal digit string. -/
def digitsToNat (l : List Char) : Nat :=
  l.foldl (fun acc c => acc * 10 + (c.toNat - 48)) 0

/-- Models Rust `str::parse::<u32>()`: an optional leading `+`, then at
least one decimal digit, and the value must fit in 32 bits. -/
def parseU32 (s : List Char) : Option Nat :=
  let digits := if s.head? = some '+' then s.tail else s
  if digits = [] then none
  else if digits.all (fun c => c.isDigit) then
    if digitsToNat digits < 4294967296 then some (digitsToNat digits) else none
  else none

/-- Split a character list at every newline character (keeping empty
pieces); auxiliary for the model of Rust `str::lines`. -/
def splitNl : List Char → List (List Char)
  | [] => [[]]
  | c :: rest =>
    match splitNl rest with
    | [] => [[c]]
    | p :: ps => if c = '\n' then [] :: p :: ps else (c :: p) :: ps

/-- Drop one trailing carriage return, as Rust `str::lines` does on each
piece. -/
def stripCr (l : List Char) : List Char :=
  if l.getLast? = some '\r' then l.dropLast else l

/-- Models Rust `str::lines`: split at `'\n'`, drop the final empty piece
produced by a trailing newline, and strip one trailing `'\r'` per line. -/
def rustLines (s : List Char) : List (List Char) :=
  let ps := splitNl s
  let ps := if ps.getLast? = some [] then ps.dropLast else ps
  ps.map stripCr

/-- The block `block` occurs in `l` starting at position `n`. -/
def hasBlockAt (block l : List String) (n : Nat) : Prop :=
  ∀ i, i < block.length → l[n + i]? = block[i]?

/-- The block `block` occurs contiguously somewhere in `l`: the formal reading of
"the argument vector contains these consecutive arguments". -/
def hasBlock (block l : List String) : Prop :=
  ∃ n, hasBlockAt block l n

/-! ## Data model (`lib.rs` result structs and the session registry) -/

/-- Struct `RecordingResult` from `lib.rs`. -/
structure RecordingResult where
  process_id : Nat
  output_path : String
deriving DecidableEq

/-- Struct `StopRecordingResult` from `lib.rs`. -/
structure StopRecordingResult where
  success : Bool
  file_path : String
  message : String
deriving DecidableEq

/-- Struct `AudioDevice` from `lib.rs` (name kept as its character list). -/
structure AudioDevice where
  index : Nat
  name : List Char
deriving DecidableEq

/-- Struct `AudioDeviceList` from `lib.rs`. -/
structure AudioDeviceList where
  devices : List AudioDevice
deriving DecidableEq

/-- The `RECORDING_PROCESSES` map: process id to stored output path.  The
owned child handle is not part of the registry state here because its
observable behaviour is supplied by the stop environment. -/
def Registry := Nat → Option String

/-- Models `HashMap::insert` on the registry. -/
def Registry.insert (pid : Nat) (path : String) (reg : Registry) : Registry :=
  fun n => if n = pid then some path else reg n

/-- Models `HashMap::remove` on the registry. -/
def Registry.remove (pid : Nat) (reg : Registry) : Registry :=
  fun n => if n = pid then none else reg n

/-! ## Command builder

The exact FFmpeg argument vectors assembled by the three start commands,
transcribed `cmd.arg` by `cmd.arg` from `lib.rs`.  The trailing output
path is the last argument in every mode. -/

/-- The audio-encoding arguments added by every mode when an audio device
index is supplied: `-c:a aac -b:a 192k -ar 48000 -ac 2`. -/
def audioArgs : List String :=
  ["-c:a", "aac", "-b:a", "192k", "-ar", "48000", "-ac", "2"]

/-- Argument vector of `start_screen_recording` (lines 135-171). -/
def screenRecordingArgs (audio_device_index : Option Nat) (output : String) :
    List String :=
  let input_device : String :=
    match audio_device_index with
    | some audio_idx => "4:" ++ Nat.repr audio_idx
    | none => "4:"
  ["-f", "avfoundation", "-capture_cursor", "1", "-framerate", "30",
   "-i", input_device]
  ++ (if audio_device_index.isSome then audioArgs else [])
  ++ ["-r", "30", "-c:v", "libx264", "-preset", "fast", "-crf", "23",
      "-pix_fmt", "yuv420p", "-y", output]

/-- Argument vector of `start_webcam_recording` (lines 252-301). -/
def webcamRecordingArgs (device_index : Option Nat)
    (audio_device_index : Option Nat) (output : String) : List String :=
  let device_idx := device_index.getD 0
  let device_string : String :=
    match audio_device_index with
    | some audio_idx => Nat.repr device_idx ++ ":" ++ Nat.repr audio_idx
    | none => Nat.repr device_idx ++ ":"
  ["-f", "avfoundation", "-framerate", "30", "-video_size", "1280x720",
   "-i", device_string]
  ++ (if audio_device_index.isSome then audioArgs else [])
  ++ ["-r", "30", "-c:v", "libx264", "-preset", "fast", "-crf", "23",
      "-pix_fmt", "yuv420p", "-y", output]

/-- The overlay-position expression chosen by `start_screen_webcam_recording`
(lines 629-638): `pip_position.as_deref().unwrap_or("bottom-right")`
matched against the four corner names, default bottom-right. -/
def overlayPos (pip_position : Option String) : String :=
  let position := pip_position.getD "bottom-right"
  if position = "bottom-right" then "W-w-10:H-h-10"
  else if position = "bottom-left" then "10:H-h-10"
  else if position = "top-right" then "W-w-10:10"
  else if position = "top-left" then "10:10"
  else "W-w-10:H-h-10"

/-- The `filter_complex` expression of PiP mode (lines 662-665), with the
hardcoded `pip_width = "320"`, `pip_height = "240"`. -/
def pipFilter (pip_position : Option String) : String :=
  let pip_width := "320"
  let pip_height := "240"
  "[1:v]scale=" ++ pip_width ++ ":" ++ pip_height
    ++ "[webcam];[0:v][webcam]overlay=" ++ overlayPos pip_position ++ "[v]"

/-- Argument vector of `start_screen_webcam_recording` (lines 644-696).
The `_pip_size` parameter is accepted and never read, exactly as in the
source. -/
def screenWebcamRecordingArgs (webcam_device_index : Option Nat)
    (pip_position : Option String) (_pip_size : Option String)
    (audio_device_index : Option Nat) (output : String) : List String :=
  let webcam_idx := webcam_device_index.getD 0
  let screen_device : String :=
    match audio_device_index with
    | some audio_idx => "4:" ++ Nat.repr audio_idx
    | none => "4:"
  let webcam_device : String := Nat.repr webcam_idx ++ ":"
  ["-f", "avfoundation", "-capture_cursor", "1", "-framerate", "30",
   "-i", screen_device,
   "-f", "avfoundation", "-framerate", "30", "-video_size", "1280x720",
   "-i", webcam_device,
   "-filter_complex", pipFilter pip_position, "-map", "[v]"]
  ++ (if audio_device_index.isSome then ["-map", "0:a"] ++ audioArgs else [])
  ++ ["-r", "30", "-c:v", "libx264", "-preset", "fast", "-crf", "23",
      "-pix_fmt", "yuv420p", "-y", output]

/-! ## Session supervisor (start and stop commands)

The outcomes the operating system would deliver during one invocation are
collected in environment records; the command bodies below reproduce the
control flow of `lib.rs` over those outcomes. -/

/-- Outcome of the `child.try_wait()` probe 200 ms after spawning:
the process already exited (carrying the debug-formatted `ExitStatus`),
is still running, or the status check itself failed. -/
inductive TryWaitResult where
  | exited (status : String)
  | running
  | checkFailed (e : String)
deriving DecidableEq

/-- Environment of one start invocation. -/
structure StartEnv where
  /-- `temp_dir.join(..).to_str()` produced a UTF-8 path. -/
  tempDirValid : Bool
  /-- `std::env::temp_dir()` as a string. -/
  tempDir : String
  /-- `SystemTime::now().duration_since(UNIX_EPOCH).as_secs()`. -/
  timestamp : Nat
  /-- the `ffmpeg -version` availability probe succeeded. -/
  ffmpegAvailable : Bool
  /-- outcome of `cmd.spawn()` (error text on failure). -/
  spawnResult : Except String Unit
  /-- outcome of the post-launch `try_wait` probe. -/
  tryWait : TryWaitResult
  /-- `child.stderr.take()` returned a handle. -/
  stderrAvailable : Bool
  /-- diagnostic-stream text read from the child. -/
  stderrText : String
  /-- `child.id()`. -/
  pid : Nat

/-- Models `PathBuf::join` followed by `to_str`, for a relative file name:
a separator is inserted unless the directory already ends with one. -/
def pathJoin (dir name : String) : String :=
  if dir.endsWith "/" then dir ++ name else dir ++ "/" ++ name

/-- Error message of a failed `to_str` on the generated temp path. -/
def tempPathFailMsg : String := "Failed to create temp file path"

/-- FFmpeg-unavailable message of the screen and PiP start commands. -/
def ffmpegMissingScreenMsg : String :=
  "FFmpeg is not installed or not found in PATH. Please install FFmpeg to use screen recording."

/-- FFmpeg-unavailable message of the webcam start command. -/
def ffmpegMissingWebcamMsg : String :=
  "FFmpeg is not installed or not found in PATH. Please install FFmpeg to use webcam recording."

/-- FFmpeg-unavailable message of the device-list command. -/
def ffmpegMissingListMsg : String :=
  "FFmpeg is not installed or not found in PATH. Please install FFmpeg to list audio devices."

/-- Spawn-failure message (same text in all three start commands). -/
def spawnFailMsg (e : String) : String :=
  "Failed to start FFmpeg process: " ++ e
    ++ ". Make sure FFmpeg is installed and available in PATH."

/-- Immediate-exit message: includes the captured diagnostics exactly when
a stderr handle was present and the text read from it is non-empty. -/
def immediateExitMsg (status : String) (stderrAvail : Bool)
    (stderrText : String) : String :=
  if stderrAvail ∧ stderrText ≠ "" then
    "FFmpeg exited immediately with status " ++ status
      ++ ". Error output: " ++ stderrText
  else
    "FFmpeg exited immediately with status " ++ status

/-- Status-check-failure message of the start commands. -/
def checkStatusMsg (e : String) : String :=
  "Failed to check FFmpeg process status: " ++ e

/-- Command `start_screen_recording` (lines 95-219): resolve the output path,
probe FFmpeg availability, spawn, wait 200 ms, probe liveness, and only
then insert the session into the registry. -/
def start_screen_recording (env : StartEnv) (output_path : Option String)
    (_audio_device_index : Option Nat) (reg : Registry) :
    Except String RecordingResult × Registry :=
  let outputE : Except String String :=
    match output_path with
    | some path => .ok path
    | none =>
      if env.tempDirValid then
        .ok (pathJoin env.tempDir
          ("clipforge-recording-" ++ Nat.repr env.timestamp ++ ".mp4"))
      else .error tempPathFailMsg
  match outputE with
  | .error e => (.error e, reg)
  | .ok output =>
    if env.ffmpegAvailable then
      match env.spawnResult with
      | .error e => (.error (spawnFailMsg e), reg)
      | .ok _ =>
        match env.tryWait with
        | .exited status =>
          (.error (immediateExitMsg status env.stderrAvailable env.stderrText),
           reg)
        | .checkFailed e => (.error (checkStatusMsg e), reg)
        | .running =>
          (.ok ⟨env.pid, output⟩, reg.insert env.pid output)
    else (.error ffmpegMissingScreenMsg, reg)

/-- Command `start_webcam_recording` (lines 224-349): identical supervision flow
with the webcam default path and failure message. -/
def start_webcam_recording (env : StartEnv) (output_path : Option String)
    (_device_index : Option Nat) (_audio_device_index : Option Nat)
    (reg : Registry) : Except String RecordingResult × Registry :=
  let outputE : Except String String :=
    match output_path with
    | some path => .ok path
    | none =>
      if env.tempDirValid then
        .ok (pathJoin env.tempDir
          ("clipforge-webcam-" ++ Nat.repr env.timestamp ++ ".mp4"))
      else .error tempPathFailMsg
  match outputE with
  | .error e => (.error e, reg)
  | .ok output =>
    if env.ffmpegAvailable then
      match env.spawnResult with
      | .error e => (.error (spawnFailMsg e), reg)
      | .ok _ =>
        match env.tryWait with
        | .exited status =>
          (.error (immediateExitMsg status env.stderrAvailable env.stderrText),
           reg)
        | .checkFailed e => (.error (checkStatusMsg e), reg)
        | .running =>
          (.ok ⟨env.pid, output⟩, reg.insert env.pid output)
    else (.error ffmpegMissingWebcamMsg, reg)

/-- Command `start_screen_webcam_recording` (lines 581-743): same supervision flow
with the PiP default path; `_pip_size` is accepted and never read. -/
def start_screen_webcam_recording (env : StartEnv)
    (output_path : Option String) (_webcam_device_index : Option Nat)
    (_pip_position : Option String) (_pip_size : Option String)
    (_audio_device_index : Option Nat) (reg : Registry) :
    Except String RecordingResult × Registry :=
  let outputE : Except String String :=
    match output_path with
    | some path => .ok path
    | none =>
      if env.tempDirValid then
        .ok (pathJoin env.tempDir
          ("clipforge-pip-" ++ Nat.repr env.timestamp ++ ".mp4"))
      else .error tempPathFailMsg
  match outputE with
  | .error e => (.error e, reg)
  | .ok output =>
    if env.ffmpegAvailable then
      match env.spawnResult with
      | .error e => (.error (spawnFailMsg e), reg)
      | .ok _ =>
        match env.tryWait with
        | .exited status =>
          (.error (immediateExitMsg status env.stderrAvailable env.stderrText),
           reg)
        | .checkFailed e => (.error (checkStatusMsg e), reg)
        | .running =>
          (.ok ⟨env.pid, output⟩, reg.insert env.pid output)
    else (.error ffmpegMissingScreenMsg, reg)

/-- Outcome of the `try_wait` probe performed 500 ms after a delivered
SIGINT inside `stop_screen_recording`. -/
inductive GracefulWait where
  | exited
  | stillRunning
  | checkFailed (e : String)
deriving DecidableEq

/-- Environment of one stop invocation (Unix branch of the source, the
one compiled for the supported macOS backend). -/
structure StopEnv where
  /-- `nix::sys::signal::kill(pid, SIGINT).is_ok()`. -/
  signalOk : Bool
  /-- outcome of the `try_wait` probe after the 500 ms graceful wait. -/
  graceful : GracefulWait
  /-- `Path::new(&output_path).exists()` at the graceful-exit check. -/
  fileExistsEarly : Bool
  /-- outcome of `child.wait()` after the kill: debug-formatted
  `ExitStatus` on success, error text on failure. -/
  waitResult : Except String String
  /-- `child.stderr.take()` returned a handle. -/
  stderrAvailable : Bool
  /-- diagnostic-stream text read from the child. -/
  stderrText : String
  /-- `Path::new(&output_path).exists()` after the 1000 ms settle sleep. -/
  fileExistsFinal : Bool
  /-- `fs::metadata(&output_path).len()` at the final check; `none`
  models a failed `fs::metadata` call. -/
  metadataLen : Option Nat

/-- Session-not-found message of `stop_screen_recording` (line 360). -/
def notFoundMsg (process_id : Nat) : String :=
  "Recording process with ID " ++ Nat.repr process_id ++ " not found"

/-- Empty-output message of `stop_screen_recording` (lines 423-426). -/
def emptyOutputMsg (stderr_output : String) : String :=
  "Recording file exists but is empty (0 bytes). FFmpeg may have failed to record. Stderr: "
    ++ (if stderr_output = "" then "No error output" else stderr_output)

/-- Missing-output message of `stop_screen_recording` (lines 432-447). -/
def missingOutputMsg (output_path : String) (wait_result : Except String String)
    (stderr_output : String) : String :=
  let error_details : String :=
    match wait_result with
    | .ok status =>
      "Process exited with status: " ++ status
        ++ (if stderr_output = "" then ""
            else "\nFFmpeg stderr output:\n" ++ stderr_output)
    | .error e => "Failed to wait for process: " ++ e
  "Recording file not found at '" ++ output_path ++ "'.\n" ++ error_details

/-- Command `stop_screen_recording` (lines 354-448): remove the session from the
registry first; attempt graceful SIGINT shutdown with an early success
return when the process exits and the file exists; otherwise kill, wait,
read diagnostics, settle, then verify the output file. -/
def stop_screen_recording (env : StopEnv) (process_id : Nat)
    (reg : Registry) : Except String StopRecordingResult × Registry :=
  match reg process_id with
  | none => (.error (notFoundMsg process_id), reg)
  | some output_path =>
    let reg' : Registry := reg.remove process_id
    -- the kill / wait / read-stderr / settle / verify tail of the command
    let afterKill : Except String StopRecordingResult :=
      let stderr_output := if env.stderrAvailable then env.stderrText else ""
      if env.fileExistsFinal then
        match env.metadataLen with
        | some len =>
          if 0 < len then
            .ok ⟨true, output_path, "Recording saved successfully"⟩
          else .error (emptyOutputMsg stderr_output)
        | none =>
          -- `if let Ok(metadata)` failed: control falls through to the
          -- missing-file report
          .error (missingOutputMsg output_path env.waitResult stderr_output)
      else .error (missingOutputMsg output_path env.waitResult stderr_output)
    let result : Except String StopRecordingResult :=
      if env.signalOk then
        match env.graceful with
        | .exited =>
          if env.fileExistsEarly then
            .ok ⟨true, output_path, "Recording saved successfully"⟩
          else afterKill
        | .stillRunning => afterKill
        | .checkFailed _ => afterKill
      else afterKill
    (result, reg')

/-! ## Device enumerator (`list_audio_devices`, lines 476-552) -/

/-- The audio-section start marker scanned for on line 513. -/
def audioMarker : List Char := "AVFoundation audio devices:".toList

/-- The video-section marker scanned for on line 519. -/
def videoMarker : List Char := "AVFoundation video devices:".toList

/-- The device-line marker scanned for on lines 519 and 526. -/
def indevMarker : List Char := "[AVFoundation indev".toList

/-- The device-line recognizer inlined in the parsing loop (lines
529-547): locate the last `[`, the first `]` after it, parse the
content between them as `u32`, and take the trimmed text after the `]`
as the name; any failure yields no device. -/
def parseDeviceLine (line : List Char) : Option (Nat × List Char) :=
  match lastIdxOf line '[' with
  | none => none
  | some last_open_bracket =>
    match firstIdxOf (line.drop last_open_bracket) ']' with
    | none => none
    | some closing_bracket =>
      let index_str :=
        (line.drop (last_open_bracket + 1)).take (closing_bracket - 1)
      match parseU32 index_str with
      | none => none
      | some index =>
        let name_start := last_open_bracket + closing_bracket + 1
        if name_start < line.length then
          let name := trimA (line.drop name_start)
          if name = [] then none else some (index, name)
        else none

/-- The line-scanning loop of `list_audio_devices` (lines 509-549), as a
recursion over the remaining lines carrying the `in_audio_section` flag
and the devices collected so far. -/
def parseAudioLines : List (List Char) → Bool → List AudioDevice →
    List AudioDevice
  | [], _, devices => devices
  | line :: rest, in_audio_section, devices =>
    if occursIn audioMarker line then
      -- entering the audio devices section; `continue`
      parseAudioLines rest true devices
    else
      let in_audio_section' :=
        if occursIn videoMarker line
            || (occursIn indevMarker line && !in_audio_section
                && decide (0 < devices.length)) then
          false
        else in_audio_section
      let devices' :=
        if in_audio_section' && occursIn indevMarker line
            && containsChar line '[' then
          match parseDeviceLine line with
          | some (index, name) => devices ++ [⟨index, name⟩]
          | none => devices
        else devices
      parseAudioLines rest in_audio_section' devices'

/-- Environment of one `list_audio_devices` invocation. -/
structure EnumEnv where
  /-- the `ffmpeg -version` availability probe succeeded. -/
  ffmpegAvailable : Bool
  /-- outcome of the `-list_devices` run: its stderr text (as characters)
  on success, error text on failure. -/
  runResult : Except String (List Char)

/-- Failed-run message of `list_audio_devices` (line 497). -/
def runFailMsg (e : String) : String := "Failed to run FFmpeg: " ++ e

/-- Command `list_audio_devices` (lines 476-552): probe FFmpeg, run the listing
command, then scan its diagnostic stream line by line. -/
def list_audio_devices (env : EnumEnv) : Except String AudioDeviceList :=
  if env.ffmpegAvailable then
    match env.runResult with
    | .error e => .error (runFailMsg e)
    | .ok stderrChars =>
      .ok ⟨parseAudioLines (rustLines stderrChars) false []⟩
  else .error ffmpegMissingListMsg

/-! ## Helper lemmas -/

/-- Two strings differing at one character position are distinct. -/
theorem ne_of_nth_char {s t : String} {n : Nat} {c d : Char}
    (hc : s.data[n]? = some c) (hd : t.data[n]? = some d) (h : c ≠ d) :
    s ≠ t := by
  intro e
  rw [e] at hc
  rw [hc] at hd
  exact h (Option.some.inj hd)

theorem notFoundMsg_nth (process_id : Nat) :
    (notFoundMsg process_id).data[10]? = some 'p' := by
  unfold notFoundMsg
  simp only [String.data_append]
  rw [List.append_assoc, List.getElem?_append,
    if_pos (by decide : (10:Nat) < "Recording process with ID ".data.length)]
  decide

theorem emptyOutputMsg_nth (st : String) :
    (emptyOutputMsg st).data[10]? = some 'f' := by
  unfold emptyOutputMsg
  simp only [String.data_append]
  rw [List.getElem?_append,
    if_pos (by decide : (10:Nat) <
      "Recording file exists but is empty (0 bytes). FFmpeg may have failed to record. Stderr: ".data.length)]
  decide

theorem missingOutputMsg_nth (p : String) (w : Except String String)
    (st : String) : (missingOutputMsg p w st).data[10]? = some 'f' := by
  simp only [missingOutputMsg, String.data_append]
  rw [List.append_assoc, List.append_assoc, List.getElem?_append,
    if_pos (by decide : (10:Nat) <
      "Recording file not found at '".data.length)]
  decide

theorem spawnFailMsg_nth (e : String) :
    (spawnFailMsg e).data[0]? = some 'F' := by
  unfold spawnFailMsg
  simp only [String.data_append]
  rw [List.append_assoc, List.getElem?_append,
    if_pos (by decide : (0:Nat) < "Failed to start FFmpeg process: ".data.length)]
  decide

theorem immediateExitMsg_nth (s : String) (b : Bool) (t : String) :
    (immediateExitMsg s b t).data[0]? = some 'F' := by
  unfold immediateExitMsg
  split
  · simp only [String.data_append]
    rw [List.append_assoc, List.append_assoc, List.getElem?_append,
      if_pos (by decide : (0:Nat) <
        "FFmpeg exited immediately with status ".data.length)]
    decide
  · simp only [String.data_append]
    rw [List.getElem?_append,
      if_pos (by decide : (0:Nat) <
        "FFmpeg exited immediately with status ".data.length)]
    decide

theorem checkStatusMsg_nth (e : String) :
    (checkStatusMsg e).data[0]? = some 'F' := by
  unfold checkStatusMsg
  simp only [String.data_append]
  rw [List.getElem?_append,
    if_pos (by decide : (0:Nat) <
      "Failed to check FFmpeg process status: ".data.length)]
  decide

theorem runFailMsg_nth (e : String) :
    (runFailMsg e).data[0]? = some 'F' := by
  unfold runFailMsg
  simp only [String.data_append]
  rw [List.getElem?_append,
    if_pos (by decide : (0:Nat) < "Failed to run FFmpeg: ".data.length)]
  decide

theorem notFoundMsg_nth0 (process_id : Nat) :
    (notFoundMsg process_id).data[0]? = some 'R' := by
  unfold notFoundMsg
  simp only [String.data_append]
  rw [List.append_assoc, List.getElem?_append,
    if_pos (by decide : (0:Nat) < "Recording process with ID ".data.length)]
  decide

/-! ## Claim theorems -/

/-- Claim C6: two PiP start invocations differing only in the `pipSize`
parameter construct identical FFmpeg argument vectors, and the whole start
command (including the resolved output path it returns) behaves
identically: the parameter is accepted at the interface but never read. -/
theorem c6_pip_size_has_no_effect (env : StartEnv)
    (output_path : Option String) (webcam_device_index : Option Nat)
    (pip_position : Option String) (size1 size2 : Option String)
    (audio_device_index : Option Nat) (out : String) (reg : Registry) :
    screenWebcamRecordingArgs webcam_device_index pip_position size1
        audio_device_index out
      = screenWebcamRecordingArgs webcam_device_index pip_position size2
        audio_device_index out ∧
    start_screen_webcam_recording env output_path webcam_device_index
        pip_position size1 audio_device_index reg
      = start_screen_webcam_recording env output_path webcam_device_index
        pip_position size2 audio_device_index reg :=
  ⟨rfl, rfl⟩

/-- Claim C2: stopping an unknown session identifier yields the
session-not-found failure (a message distinct from every other failure
message of the recording commands) and leaves the registry unchanged; a
stop that does find the session removes it before anything else, so any
subsequent stop of the same identifier observes session-not-found. -/
theorem c2_stop_unknown_session (env env2 : StopEnv) (process_id : Nat)
    (reg : Registry) :
    (reg process_id = none →
      stop_screen_recording env process_id reg
        = (.error (notFoundMsg process_id), reg)) ∧
    (∀ path, reg process_id = some path →
      (stop_screen_recording env process_id reg).2 process_id = none ∧
      stop_screen_recording env2 process_id
          (stop_screen_recording env process_id reg).2
        = (.error (notFoundMsg process_id),
           (stop_screen_recording env process_id reg).2)) ∧
    (∀ st, notFoundMsg process_id ≠ emptyOutputMsg st) ∧
    (∀ p w st, notFoundMsg process_id ≠ missingOutputMsg p w st) ∧
    notFoundMsg process_id ≠ ffmpegMissingScreenMsg ∧
    notFoundMsg process_id ≠ ffmpegMissingWebcamMsg ∧
    notFoundMsg process_id ≠ ffmpegMissingListMsg ∧
    notFoundMsg process_id ≠ tempPathFailMsg ∧
    (∀ e, notFoundMsg process_id ≠ spawnFailMsg e) ∧
    (∀ s b t, notFoundMsg process_id ≠ immediateExitMsg s b t) ∧
    (∀ e, notFoundMsg process_id ≠ checkStatusMsg e) ∧
    (∀ e, notFoundMsg process_id ≠ runFailMsg e) := by
  have hrem : ∀ path, reg process_id = some path →
      (stop_screen_recording env process_id reg).2
        = reg.remove process_id := by
    intro path h
    simp only [stop_screen_recording, h]
  refine ⟨?_, ?_, ?_, ?_, ?_, ?_, ?_, ?_, ?_, ?_, ?_, ?_⟩
  · intro h
    simp only [stop_screen_recording, h]
  · intro path h
    rw [hrem path h]
    constructor
    · simp [Registry.remove]
    · simp [stop_screen_recording, Registry.remove]
  · intro st
    exact ne_of_nth_char (notFoundMsg_nth process_id)
      (emptyOutputMsg_nth st) (by decide)
  · intro p w st
    exact ne_of_nth_char (notFoundMsg_nth process_id)
      (missingOutputMsg_nth p w st) (by decide)
  · exact ne_of_nth_char (d := 'F') (notFoundMsg_nth0 process_id)
      (by decide) (by decide)
  · exact ne_of_nth_char (d := 'F') (notFoundMsg_nth0 process_id)
      (by decide) (by decide)
  · exact ne_of_nth_char (d := 'F') (notFoundMsg_nth0 process_id)
      (by decide) (by decide)
  · exact ne_of_nth_char (d := 'F') (notFoundMsg_nth0 process_id)
      (by decide) (by decide)
  · intro e
    exact ne_of_nth_char (notFoundMsg_nth0 process_id)
      (spawnFailMsg_nth e) (by decide)
  · intro s b t
    exact ne_of_nth_char (notFoundMsg_nth0 process_id)
      (immediateExitMsg_nth s b t) (by decide)
  · intro e
    exact ne_of_nth_char (notFoundMsg_nth0 process_id)
      (checkStatusMsg_nth e) (by decide)
  · intro e
    exact ne_of_nth_char (notFoundMsg_nth0 process_id)
      (runFailMsg_nth e) (by decide)

/-- A stop environment in which SIGINT is delivered, the subprocess exits
within the graceful wait, and the output file exists but holds zero
bytes. -/
def stopEnvGraceful : StopEnv :=
  ⟨true, .exited, true, .ok "ExitStatus(unix_wait_status(0))", true, "",
   true, some 0⟩

/-- A registry holding exactly one session: process 5 recording to
`/tmp/clip.mp4`. -/
def regOne : Registry :=
  fun n => if n = 5 then some "/tmp/clip.mp4" else none

/-- Witness for C2: at the empty registry a stop of id 9 reports
session-not-found and changes nothing, and after a stop that does find
id 5 in `regOne` the registry no longer holds id 5. -/
theorem c2_stop_unknown_session_witness :
    ((fun _ : Nat => (none : Option String)) 9 = none ∧
      stop_screen_recording stopEnvGraceful 9 (fun _ => none)
        = (.error (notFoundMsg 9), fun _ => none)) ∧
    (regOne 5 = some "/tmp/clip.mp4" ∧
      (stop_screen_recording stopEnvGraceful 5 regOne).2 5 = none) :=
  ⟨⟨rfl, (c2_stop_unknown_session stopEnvGraceful stopEnvGraceful 9
      (fun _ => none)).1 rfl⟩,
   ⟨rfl, ((c2_stop_unknown_session stopEnvGraceful stopEnvGraceful 5
      regOne).2.1 "/tmp/clip.mp4" rfl).1⟩⟩

/-- Claim C3: in all three start commands a registry entry keyed by the
subprocess id appears only when the spawn succeeded and the post-launch
liveness probe found the process still running; on every failure outcome
(path generation, tool probe, spawn, immediate exit, status check) the
registry is returned unchanged. -/
theorem c3_registry_insert_only_after_probe (env : StartEnv)
    (output_path : Option String)
    (audio_device_index device_index webcam_device_index : Option Nat)
    (pip_position pip_size : Option String) (reg : Registry) :
    (∀ e, (start_screen_recording env output_path audio_device_index
        reg).1 = .error e →
      (start_screen_recording env output_path audio_device_index reg).2
        = reg) ∧
    (∀ r, (start_screen_recording env output_path audio_device_index
        reg).1 = .ok r →
      env.spawnResult = .ok () ∧ env.tryWait = .running ∧
      r.process_id = env.pid ∧
      (start_screen_recording env output_path audio_device_index reg).2
        = reg.insert env.pid r.output_path) ∧
    (∀ e, (start_webcam_recording env output_path device_index
        audio_device_index reg).1 = .error e →
      (start_webcam_recording env output_path device_index
        audio_device_index reg).2 = reg) ∧
    (∀ r, (start_webcam_recording env output_path device_index
        audio_device_index reg).1 = .ok r →
      env.spawnResult = .ok () ∧ env.tryWait = .running ∧
      r.process_id = env.pid ∧
      (start_webcam_recording env output_path device_index
        audio_device_index reg).2 = reg.insert env.pid r.output_path) ∧
    (∀ e, (start_screen_webcam_recording env output_path
        webcam_device_index pip_position pip_size audio_device_index
        reg).1 = .error e →
      (start_screen_webcam_recording env output_path webcam_device_index
        pip_position pip_size audio_device_index reg).2 = reg) ∧
    (∀ r, (start_screen_webcam_recording env output_path
        webcam_device_index pip_position pip_size audio_device_index
        reg).1 = .ok r →
      env.spawnResult = .ok () ∧ env.tryWait = .running ∧
      r.process_id = env.pid ∧
      (start_screen_webcam_recording env output_path webcam_device_index
        pip_position pip_size audio_device_index reg).2
        = reg.insert env.pid r.output_path) := by
  obtain ⟨tdv, td, ts, ff, sp, tw, sa, st, pid⟩ := env
  refine ⟨?_, ?_, ?_, ?_, ?_, ?_⟩ <;>
    (intro x h
     cases output_path <;> cases tdv <;> cases ff <;> cases sp <;>
       cases tw <;>
       simp_all [start_screen_recording, start_webcam_recording,
         start_screen_webcam_recording, Registry.insert] <;>
       (cases h; exact ⟨rfl, rfl⟩))

/-- A start environment in which every probe succeeds and the spawned
process (id 77) stays alive. -/
def startEnvOk : StartEnv :=
  ⟨true, "/tmp", 1700000000, true, .ok (), .running, true, "", 77⟩

/-- A start environment in which the `ffmpeg -version` probe fails. -/
def startEnvNoFfmpeg : StartEnv :=
  ⟨true, "/tmp", 1700000000, false, .ok (), .running, true, "", 77⟩

/-- Witness for C3: a successful screen start inserts exactly the spawned
session, and a webcam start with FFmpeg unavailable fails and leaves the
empty registry unchanged. -/
theorem c3_registry_insert_only_after_probe_witness :
    ((start_screen_recording startEnvOk (some "/tmp/a.mp4") none
        (fun _ => none)).1 = .ok ⟨77, "/tmp/a.mp4"⟩ ∧
      (start_screen_recording startEnvOk (some "/tmp/a.mp4") none
        (fun _ => none)).2
        = Registry.insert 77 "/tmp/a.mp4" (fun _ => none)) ∧
    ((start_webcam_recording startEnvNoFfmpeg (some "/tmp/a.mp4") none none
        (fun _ => none)).1 = .error ffmpegMissingWebcamMsg ∧
      (start_webcam_recording startEnvNoFfmpeg (some "/tmp/a.mp4") none none
        (fun _ => none)).2 = fun _ => none) :=
  ⟨⟨rfl, ((c3_registry_insert_only_after_probe startEnvOk
      (some "/tmp/a.mp4") none none none none none
      (fun _ => none)).2.1 ⟨77, "/tmp/a.mp4"⟩ rfl).2.2.2⟩,
   ⟨rfl, (c3_registry_insert_only_after_probe startEnvNoFfmpeg
      (some "/tmp/a.mp4") none none none none none
      (fun _ => none)).2.2.1 ffmpegMissingWebcamMsg rfl⟩⟩

/-- Claim C9: with no explicit output path, each start command resolves
its output to the temp directory joined with a mode-named,
timestamp-bearing `.mp4` file name and returns that path with the session
id; an explicit path is used verbatim. -/
theorem c9_default_output_path (env : StartEnv) (reg : Registry)
    (device_index audio_device_index webcam_device_index : Option Nat)
    (pip_position pip_size : Option String) (p : String) :
    (∀ s, ∃ d, pathJoin env.tempDir s = d ++ s ∧
      (d = env.tempDir ∨ d = env.tempDir ++ "/")) ∧
    (∀ r, (start_screen_recording env none audio_device_index reg).1
        = .ok r →
      r.output_path = pathJoin env.tempDir
        ("clipforge-recording-" ++ Nat.repr env.timestamp ++ ".mp4") ∧
      r.process_id = env.pid) ∧
    (∀ r, (start_webcam_recording env none device_index
        audio_device_index reg).1 = .ok r →
      r.output_path = pathJoin env.tempDir
        ("clipforge-webcam-" ++ Nat.repr env.timestamp ++ ".mp4") ∧
      r.process_id = env.pid) ∧
    (∀ r, (start_screen_webcam_recording env none webcam_device_index
        pip_position pip_size audio_device_index reg).1 = .ok r →
      r.output_path = pathJoin env.tempDir
        ("clipforge-pip-" ++ Nat.repr env.timestamp ++ ".mp4") ∧
      r.process_id = env.pid) ∧
    (∀ r, (start_screen_recording env (some p) audio_device_index reg).1
        = .ok r → r.output_path = p) ∧
    (∀ r, (start_webcam_recording env (some p) device_index
        audio_device_index reg).1 = .ok r → r.output_path = p) ∧
    (∀ r, (start_screen_webcam_recording env (some p) webcam_device_index
        pip_position pip_size audio_device_index reg).1 = .ok r →
      r.output_path = p) := by
  obtain ⟨tdv, td, ts, ff, sp, tw, sa, st, pid⟩ := env
  refine ⟨?_, ?_, ?_, ?_, ?_, ?_, ?_⟩
  · intro s
    by_cases h : td.endsWith "/"
    · exact ⟨td, by simp [pathJoin, h], Or.inl rfl⟩
    · exact ⟨td ++ "/", by simp [pathJoin, h], Or.inr rfl⟩
  all_goals
    (intro r h
     cases tdv <;> cases ff <;> cases sp <;> cases tw <;>
       simp_all [start_screen_recording, start_webcam_recording,
         start_screen_webcam_recording] <;>
       (cases h; first | exact ⟨rfl, rfl⟩ | rfl))

/-- Witness for C9: a concrete successful webcam start with no explicit
path returns the generated temp path, and with an explicit path returns
it verbatim. -/
theorem c9_default_output_path_witness :
    ((start_webcam_recording startEnvOk none (some 2) none
        (fun _ => none)).1
      = .ok ⟨77, pathJoin "/tmp"
          ("clipforge-webcam-" ++ Nat.repr 1700000000 ++ ".mp4")⟩) ∧
    (∀ r, (start_webcam_recording startEnvOk (some "/out.mp4") (some 2)
        none (fun _ => none)).1 = .ok r → r.output_path = "/out.mp4") :=
  ⟨rfl,
   (c9_default_output_path startEnvOk (fun _ => none) (some 2) none none
      none none "/out.mp4").2.2.2.2.2.1⟩

/-- Claim C1 counterexample: in `stopEnvGraceful` the output file exists
with length zero, yet stopping registered session 5 returns success: the
graceful-exit early path checks only existence, never the length, so the
claimed "zero-length file always yields a failure" is false on the code. -/
theorem c1_counterexample_zero_length_success :
    stopEnvGraceful.fileExistsFinal = true ∧
    stopEnvGraceful.metadataLen = some 0 ∧
    regOne 5 = some "/tmp/clip.mp4" ∧
    (stop_screen_recording stopEnvGraceful 5 regOne).1
      = .ok ⟨true, "/tmp/clip.mp4", "Recording saved successfully"⟩ :=
  ⟨rfl, rfl, rfl, rfl⟩

/-- Claim C1 (amended): for every stop of a registered session that does
not take the graceful-exit early-success path, the result after the full
kill/wait/settle sequence is determined by the output file: absent file
yields the missing-output failure (exit status plus captured diagnostics),
zero-length file yields the empty-output failure with diagnostics, and a
non-empty file yields success carrying the output path. -/
theorem c1_amended_stop_verifies_output (env : StopEnv) (process_id : Nat)
    (reg : Registry) (path : String) (h : reg process_id = some path)
    (hne : env.signalOk = false ∨ env.graceful ≠ .exited ∨
      env.fileExistsEarly = false) :
    (env.fileExistsFinal = false →
      (stop_screen_recording env process_id reg).1
        = .error (missingOutputMsg path env.waitResult
            (if env.stderrAvailable then env.stderrText else ""))) ∧
    (env.fileExistsFinal = true → env.metadataLen = some 0 →
      (stop_screen_recording env process_id reg).1
        = .error (emptyOutputMsg
            (if env.stderrAvailable then env.stderrText else ""))) ∧
    (∀ k, env.fileExistsFinal = true → env.metadataLen = some (k + 1) →
      (stop_screen_recording env process_id reg).1
        = .ok ⟨true, path, "Recording saved successfully"⟩) := by
  obtain ⟨sig, gw, fee, wr, sa, st, fef, ml⟩ := env
  refine ⟨?_, ?_, ?_⟩ <;> intros <;>
    cases sig <;> cases gw <;> cases fee <;>
      simp_all [stop_screen_recording, h]

/-- A stop environment in which SIGINT delivery fails, the process is
killed, and the output file exists with zero bytes. -/
def stopEnvKilled : StopEnv :=
  ⟨false, .stillRunning, false, .ok "ExitStatus(signal: 9)", true, "boom",
   true, some 0⟩

/-- Witness for C1 (amended): with SIGINT undelivered and a zero-byte
output file, stopping registered session 5 reports the empty-output
failure carrying the captured diagnostics. -/
theorem c1_amended_stop_verifies_output_witness :
    regOne 5 = some "/tmp/clip.mp4" ∧
    stopEnvKilled.signalOk = false ∧
    (stop_screen_recording stopEnvKilled 5 regOne).1
      = .error (emptyOutputMsg "boom") :=
  ⟨rfl, rfl,
   (c1_amended_stop_verifies_output stopEnvKilled 5 regOne "/tmp/clip.mp4"
      rfl (Or.inl rfl)).2.1 rfl rfl⟩

/-- The always-present video-encoding arguments: input framerate 30,
output framerate 30, codec libx264, CRF 23, pixel format yuv420p, and
forced overwrite. -/
def fixedVideoArgs (l : List String) : Prop :=
  hasBlock ["-framerate", "30"] l ∧ hasBlock ["-r", "30"] l ∧
  hasBlock ["-c:v", "libx264"] l ∧ hasBlock ["-crf", "23"] l ∧
  hasBlock ["-pix_fmt", "yuv420p"] l ∧ hasBlock ["-y"] l

/-- A one-element block occurs at `n` as soon as the element is there. -/
theorem hasBlockAt_single {a : String} {l : List String} {n : Nat}
    (h0 : l[n]? = some a) : hasBlockAt [a] l n := by
  intro i hi
  have hi' : i < 1 := hi
  match i, hi' with
  | 0, _ => exact h0

/-- A two-element block occurs at `n` as soon as both elements are
there. -/
theorem hasBlockAt_pair {a b : String} {l : List String} {n : Nat}
    (h0 : l[n]? = some a) (h1 : l[n + 1]? = some b) :
    hasBlockAt [a, b] l n := by
  intro i hi
  have hi' : i < 2 := hi
  match i, hi' with
  | 0, _ => exact h0
  | 1, _ => exact h1

/-- The audio block occurs at `n` as soon as its eight elements are
there. -/
theorem hasBlockAt_audio {l : List String} {n : Nat}
    (h0 : l[n]? = some "-c:a") (h1 : l[n + 1]? = some "aac")
    (h2 : l[n + 2]? = some "-b:a") (h3 : l[n + 3]? = some "192k")
    (h4 : l[n + 4]? = some "-ar") (h5 : l[n + 5]? = some "48000")
    (h6 : l[n + 6]? = some "-ac") (h7 : l[n + 7]? = some "2") :
    hasBlockAt audioArgs l n := by
  intro i hi
  have hi' : i < 8 := hi
  match i, hi' with
  | 0, _ => exact h0
  | 1, _ => exact h1
  | 2, _ => exact h2
  | 3, _ => exact h3
  | 4, _ => exact h4
  | 5, _ => exact h5
  | 6, _ => exact h6
  | 7, _ => exact h7

/-- A list in which no `-c:a` entry is immediately followed by `aac`
cannot contain the audio-argument block. -/
theorem not_hasBlock_audioArgs {l : List String}
    (h : ∀ n, l[n]? = some "-c:a" → l[n + 1]? ≠ some "aac") :
    ¬ hasBlock audioArgs l := by
  rintro ⟨n, hb⟩
  exact h n (hb 0 (by decide)) (hb 1 (by decide))

theorem screen_no_audio_pairs (out : String) :
    ∀ n, (screenRecordingArgs none out)[n]? = some "-c:a" →
      (screenRecordingArgs none out)[n + 1]? ≠ some "aac" := by
  intro n h
  have hn : n < 20 := by
    by_contra hc
    push_neg at hc
    rw [List.getElem?_eq_none (by simpa using hc)] at h
    exact Option.noConfusion h
  interval_cases n <;>
    first
      | exact absurd h (of_decide_eq_false rfl)
      | (intro h1; exact absurd h1 (of_decide_eq_false rfl))

theorem webcam_no_audio_pairs (device_index : Option Nat) (out : String) :
    ∀ n, (webcamRecordingArgs device_index none out)[n]? = some "-c:a" →
      (webcamRecordingArgs device_index none out)[n + 1]? ≠ some "aac" := by
  intro n h
  have hn : n < 20 := by
    by_contra hc
    push_neg at hc
    rw [List.getElem?_eq_none (by simpa using hc)] at h
    exact Option.noConfusion h
  interval_cases n <;>
    first
      | exact absurd h (of_decide_eq_false rfl)
      | (intro h1; exact absurd h1 (of_decide_eq_false rfl))

theorem pip_no_audio_pairs (webcam_device_index : Option Nat)
    (pip_position pip_size : Option String) (out : String) :
    ∀ n, (screenWebcamRecordingArgs webcam_device_index pip_position
        pip_size none out)[n]? = some "-c:a" →
      (screenWebcamRecordingArgs webcam_device_index pip_position pip_size
        none out)[n + 1]? ≠ some "aac" := by
  intro n h
  have hn : n < 32 := by
    by_contra hc
    push_neg at hc
    rw [List.getElem?_eq_none (by simpa using hc)] at h
    exact Option.noConfusion h
  interval_cases n <;>
    first
      | exact absurd h (of_decide_eq_false rfl)
      | (intro h1; exact absurd h1 (of_decide_eq_false rfl))

/-- Claim C4: in every mode and for every option set the argument vector
carries the fixed video settings; it carries the audio-encoding block
exactly when an audio device index is supplied; and with no audio index
the `-i` input-device argument ends in `:`. -/
theorem c4_fixed_encoding_args
    (audio_device_index device_index webcam_device_index : Option Nat)
    (pip_position pip_size : Option String) (out : String) :
    (fixedVideoArgs (screenRecordingArgs audio_device_index out) ∧
     (hasBlock audioArgs (screenRecordingArgs audio_device_index out)
       ↔ audio_device_index.isSome = true) ∧
     (audio_device_index = none → ∃ p, hasBlock ["-i", p ++ ":"]
        (screenRecordingArgs audio_device_index out))) ∧
    (fixedVideoArgs (webcamRecordingArgs device_index audio_device_index
        out) ∧
     (hasBlock audioArgs (webcamRecordingArgs device_index
        audio_device_index out) ↔ audio_device_index.isSome = true) ∧
     (audio_device_index = none → ∃ p, hasBlock ["-i", p ++ ":"]
        (webcamRecordingArgs device_index audio_device_index out))) ∧
    (fixedVideoArgs (screenWebcamRecordingArgs webcam_device_index
        pip_position pip_size audio_device_index out) ∧
     (hasBlock audioArgs (screenWebcamRecordingArgs webcam_device_index
        pip_position pip_size audio_device_index out)
       ↔ audio_device_index.isSome = true) ∧
     (audio_device_index = none → ∃ p, hasBlock ["-i", p ++ ":"]
        (screenWebcamRecordingArgs webcam_device_index pip_position
          pip_size audio_device_index out))) := by
  refine ⟨?_, ?_, ?_⟩
  · cases audio_device_index with
    | none =>
      exact ⟨⟨⟨4, hasBlockAt_pair rfl rfl⟩, ⟨8, hasBlockAt_pair rfl rfl⟩,
        ⟨10, hasBlockAt_pair rfl rfl⟩, ⟨14, hasBlockAt_pair rfl rfl⟩,
        ⟨16, hasBlockAt_pair rfl rfl⟩, ⟨18, hasBlockAt_single rfl⟩⟩,
        iff_of_false (not_hasBlock_audioArgs (screen_no_audio_pairs out))
          (by simp),
        fun _ => ⟨"4", 6, hasBlockAt_pair rfl (of_decide_eq_true rfl)⟩⟩
    | some a =>
      exact ⟨⟨⟨4, hasBlockAt_pair rfl rfl⟩, ⟨16, hasBlockAt_pair rfl rfl⟩,
        ⟨18, hasBlockAt_pair rfl rfl⟩, ⟨22, hasBlockAt_pair rfl rfl⟩,
        ⟨24, hasBlockAt_pair rfl rfl⟩, ⟨26, hasBlockAt_single rfl⟩⟩,
        iff_of_true
          ⟨8, hasBlockAt_audio rfl rfl rfl rfl rfl rfl rfl rfl⟩ rfl,
        fun hcon => Option.noConfusion hcon⟩
  · cases audio_device_index with
    | none =>
      exact ⟨⟨⟨2, hasBlockAt_pair rfl rfl⟩, ⟨8, hasBlockAt_pair rfl rfl⟩,
        ⟨10, hasBlockAt_pair rfl rfl⟩, ⟨14, hasBlockAt_pair rfl rfl⟩,
        ⟨16, hasBlockAt_pair rfl rfl⟩, ⟨18, hasBlockAt_single rfl⟩⟩,
        iff_of_false
          (not_hasBlock_audioArgs (webcam_no_audio_pairs device_index out))
          (by simp),
        fun _ => ⟨Nat.repr (device_index.getD 0), 6,
          hasBlockAt_pair rfl rfl⟩⟩
    | some a =>
      exact ⟨⟨⟨2, hasBlockAt_pair rfl rfl⟩, ⟨16, hasBlockAt_pair rfl rfl⟩,
        ⟨18, hasBlockAt_pair rfl rfl⟩, ⟨22, hasBlockAt_pair rfl rfl⟩,
        ⟨24, hasBlockAt_pair rfl rfl⟩, ⟨26, hasBlockAt_single rfl⟩⟩,
        iff_of_true
          ⟨8, hasBlockAt_audio rfl rfl rfl rfl rfl rfl rfl rfl⟩ rfl,
        fun hcon => Option.noConfusion hcon⟩
  · cases audio_device_index with
    | none =>
      exact ⟨⟨⟨4, hasBlockAt_pair rfl rfl⟩, ⟨20, hasBlockAt_pair rfl rfl⟩,
        ⟨22, hasBlockAt_pair rfl rfl⟩, ⟨26, hasBlockAt_pair rfl rfl⟩,
        ⟨28, hasBlockAt_pair rfl rfl⟩, ⟨30, hasBlockAt_single rfl⟩⟩,
        iff_of_false
          (not_hasBlock_audioArgs (pip_no_audio_pairs webcam_device_index
            pip_position pip_size out))
          (by simp),
        fun _ => ⟨"4", 6, hasBlockAt_pair rfl (of_decide_eq_true rfl)⟩⟩
    | some a =>
      exact ⟨⟨⟨4, hasBlockAt_pair rfl rfl⟩, ⟨30, hasBlockAt_pair rfl rfl⟩,
        ⟨32, hasBlockAt_pair rfl rfl⟩, ⟨36, hasBlockAt_pair rfl rfl⟩,
        ⟨38, hasBlockAt_pair rfl rfl⟩, ⟨40, hasBlockAt_single rfl⟩⟩,
        iff_of_true
          ⟨22, hasBlockAt_audio rfl rfl rfl rfl rfl rfl rfl rfl⟩ rfl,
        fun hcon => Option.noConfusion hcon⟩

/-- Witness for C4: with an audio index the screen argument vector
carries the audio block; without one the webcam argument vector does
not. -/
theorem c4_fixed_encoding_args_witness :
    hasBlock audioArgs (screenRecordingArgs (some 1) "/tmp/o.mp4") ∧
    ¬ hasBlock audioArgs (webcamRecordingArgs (some 3) none "/tmp/o.mp4") :=
  ⟨(c4_fixed_encoding_args (some 1) (some 3) none none none
      "/tmp/o.mp4").1.2.1.mpr rfl,
   fun hb => Bool.noConfusion
     ((c4_fixed_encoding_args none (some 3) none none none
        "/tmp/o.mp4").2.1.2.1.mp hb)⟩

/-- An index with a successful `getElem?` lies below the length. -/
theorem lt_length_of_getElem_eq_some {l : List String} {n : Nat}
    {a : String} (h : l[n]? = some a) : n < l.length := by
  by_contra hc
  push_neg at hc
  rw [List.getElem?_eq_none hc] at h
  exact Option.noConfusion h

/-- A string ending in `:` is never the flag `-map`. -/
theorem colon_suffix_ne_map (s : String) : s ++ ":" ≠ "-map" := by
  intro e
  have h := congrArg (fun t : String => t.data.getLast?) e
  simp only [String.data_append] at h
  rw [List.getLast?_concat] at h
  exact absurd h (by decide)

theorem fourcolon_nth (s : String) : (("4:" ++ s)).data[0]? = some '4' := by
  rw [String.data_append, List.getElem?_append,
    if_pos (by decide : (0:Nat) < ("4:" : String).data.length)]
  decide

/-- A string starting with `4:` is never the flag `-map`. -/
theorem fourcolon_ne_map (s : String) : "4:" ++ s ≠ "-map" :=
  ne_of_nth_char (d := '-') (fourcolon_nth s) (by decide) (by decide)

theorem pipFilter_nth (pip_position : Option String) :
    (pipFilter pip_position).data[0]? = some '[' := by
  unfold pipFilter
  simp only [String.data_append, List.append_assoc]
  rw [List.getElem?_append,
    if_pos (by decide : (0:Nat) < "[1:v]scale=".data.length)]
  decide

/-- The filter expression is never the flag `-map`. -/
theorem pipFilter_ne_map (pip_position : Option String) :
    pipFilter pip_position ≠ "-map" :=
  ne_of_nth_char (d := '-') (pipFilter_nth pip_position) (by decide)
    (by decide)

/-- The filter expression written with its hardcoded 320:240 scale
folded into the literal. -/
theorem pipFilter_eq (pip_position : Option String) :
    pipFilter pip_position =
      "[1:v]scale=320:240[webcam];[0:v][webcam]overlay="
        ++ overlayPos pip_position ++ "[v]" := by
  simp only [pipFilter]
  rw [show ("[1:v]scale=" ++ "320" ++ ":" ++ "240"
      ++ "[webcam];[0:v][webcam]overlay=" : String)
    = "[1:v]scale=320:240[webcam];[0:v][webcam]overlay=" from by decide]

/-- Claim C5: the PiP argument vector carries a `filter_complex` that
scales the webcam to 320:240 and overlays it at the documented 10-pixel
offset of the chosen corner (bottom-right for unrecognized or absent
positions); it maps the composited stream `[v]`, maps `0:a` exactly when
an audio index is supplied, and every `-map` among the non-final
arguments selects only `[v]` or (with audio) `0:a`. -/
theorem c5_pip_filter_and_mapping (webcam_device_index : Option Nat)
    (pip_position pip_size : Option String)
    (audio_device_index : Option Nat) (out : String) :
    hasBlock ["-filter_complex",
      "[1:v]scale=320:240[webcam];[0:v][webcam]overlay="
        ++ overlayPos pip_position ++ "[v]"]
      (screenWebcamRecordingArgs webcam_device_index pip_position pip_size
        audio_device_index out) ∧
    overlayPos (some "bottom-right") = "W-w-10:H-h-10" ∧
    overlayPos (some "bottom-left") = "10:H-h-10" ∧
    overlayPos (some "top-right") = "W-w-10:10" ∧
    overlayPos (some "top-left") = "10:10" ∧
    overlayPos none = "W-w-10:H-h-10" ∧
    (∀ s, s ≠ "bottom-right" → s ≠ "bottom-left" → s ≠ "top-right" →
      s ≠ "top-left" → overlayPos (some s) = "W-w-10:H-h-10") ∧
    hasBlock ["-map", "[v]"]
      (screenWebcamRecordingArgs webcam_device_index pip_position pip_size
        audio_device_index out) ∧
    (hasBlock ["-map", "0:a"]
      (screenWebcamRecordingArgs webcam_device_index pip_position pip_size
        audio_device_index out) ↔ audio_device_index.isSome = true) ∧
    (∀ n, ((screenWebcamRecordingArgs webcam_device_index pip_position
        pip_size audio_device_index out).dropLast)[n]? = some "-map" →
      ((screenWebcamRecordingArgs webcam_device_index pip_position
        pip_size audio_device_index out).dropLast)[n + 1]? = some "[v]" ∨
      (audio_device_index.isSome = true ∧
        ((screenWebcamRecordingArgs webcam_device_index pip_position
          pip_size audio_device_index out).dropLast)[n + 1]?
          = some "0:a")) := by
  have hov : ∀ s, s ≠ "bottom-right" → s ≠ "bottom-left" →
      s ≠ "top-right" → s ≠ "top-left" →
      overlayPos (some s) = "W-w-10:H-h-10" := by
    intro s h1 h2 h3 h4
    simp only [overlayPos, Option.getD_some]
    split_ifs <;> first | rfl | contradiction
  cases audio_device_index with
  | none =>
    refine ⟨⟨16, hasBlockAt_pair rfl
        (congrArg some (pipFilter_eq pip_position))⟩,
      by decide, by decide, by decide, by decide, by decide, hov,
      ⟨18, hasBlockAt_pair rfl rfl⟩, iff_of_false ?_ (by simp), ?_⟩
    · rintro ⟨n, hb⟩
      have h := hb 0 (by decide)
      have h1 := hb 1 (by decide)
      have hn : n < 32 := lt_length_of_getElem_eq_some h
      interval_cases n <;>
        first
          | exact absurd h (of_decide_eq_false rfl)
          | exact absurd h1 (of_decide_eq_false rfl)
          | exact absurd (Option.some.inj h)
              (colon_suffix_ne_map
                (Nat.repr (webcam_device_index.getD 0)))
          | exact absurd (Option.some.inj h) (pipFilter_ne_map pip_position)
    · intro n h
      have hn : n < 31 := lt_length_of_getElem_eq_some h
      interval_cases n <;>
        first
          | exact absurd h (of_decide_eq_false rfl)
          | exact Or.inl (of_decide_eq_true rfl)
          | exact absurd (Option.some.inj h)
              (colon_suffix_ne_map
                (Nat.repr (webcam_device_index.getD 0)))
          | exact absurd (Option.some.inj h) (pipFilter_ne_map pip_position)
  | some a =>
    refine ⟨⟨16, hasBlockAt_pair rfl
        (congrArg some (pipFilter_eq pip_position))⟩,
      by decide, by decide, by decide, by decide, by decide, hov,
      ⟨18, hasBlockAt_pair rfl rfl⟩,
      iff_of_true ⟨20, hasBlockAt_pair rfl rfl⟩ rfl, ?_⟩
    intro n h
    have hn : n < 41 := lt_length_of_getElem_eq_some h
    interval_cases n <;>
      first
        | exact absurd h (of_decide_eq_false rfl)
        | exact Or.inl (of_decide_eq_true rfl)
        | exact Or.inr ⟨rfl, of_decide_eq_true rfl⟩
        | exact absurd (Option.some.inj h)
            (colon_suffix_ne_map
              (Nat.repr (webcam_device_index.getD 0)))
        | exact absurd (Option.some.inj h) (pipFilter_ne_map pip_position)
        | exact absurd (Option.some.inj h) (fourcolon_ne_map (Nat.repr a))

/-- Witness for C5: for a concrete PiP start with position top-left and
an audio index, the position expression is the documented 10:10 offset,
the audio stream is mapped, and an unrecognized position string falls
back to the bottom-right offset. -/
theorem c5_pip_filter_and_mapping_witness :
    overlayPos (some "top-left") = "10:10" ∧
    hasBlock ["-map", "0:a"]
      (screenWebcamRecordingArgs (some 1) (some "top-left") (some "25%")
        (some 0) "/t.mp4") ∧
    overlayPos (some "center") = "W-w-10:H-h-10" :=
  ⟨(c5_pip_filter_and_mapping (some 1) (some "top-left") (some "25%")
      (some 0) "/t.mp4").2.2.2.2.1,
   (c5_pip_filter_and_mapping (some 1) (some "top-left") (some "25%")
      (some 0) "/t.mp4").2.2.2.2.2.2.2.2.1.mpr rfl,
   (c5_pip_filter_and_mapping (some 1) (some "top-left") (some "25%")
      (some 0) "/t.mp4").2.2.2.2.2.2.1 "center" (by decide) (by decide)
      (by decide) (by decide)⟩

/-! ## Parser lemmas -/

theorem isPrefixSeq_iff (pat : List Char) :
    ∀ l, isPrefixSeq pat l = true ↔ ∃ t, l = pat ++ t := by
  induction pat with
  | nil => exact fun l => ⟨fun _ => ⟨l, rfl⟩, fun _ => rfl⟩
  | cons a as ih =>
    intro l
    cases l with
    | nil =>
      simp only [isPrefixSeq]
      constructor
      · intro hcon
        exact Bool.noConfusion hcon
      · rintro ⟨t, ht⟩
        exact List.noConfusion ht
    | cons b bs =>
      simp only [isPrefixSeq, Bool.and_eq_true, decide_eq_true_eq, ih bs]
      constructor
      · rintro ⟨rfl, t, rfl⟩
        exact ⟨t, rfl⟩
      · rintro ⟨t, ht⟩
        injection ht with h1 h2
        exact ⟨h1.symm, t, h2⟩

theorem occursIn_iff (pat : List Char) :
    ∀ l, occursIn pat l = true ↔ ∃ a b, l = a ++ pat ++ b := by
  intro l
  induction l with
  | nil =>
    simp only [occursIn, List.isEmpty_iff]
    constructor
    · rintro rfl
      exact ⟨[], [], rfl⟩
    · rintro ⟨a, b, ht⟩
      rcases List.append_eq_nil.mp (List.append_eq_nil.mp ht.symm).1
        with ⟨-, h2⟩
      exact h2
  | cons c rest ih =>
    simp only [occursIn, Bool.or_eq_true, isPrefixSeq_iff, ih]
    constructor
    · rintro (⟨t, ht⟩ | ⟨a, b, hab⟩)
      · exact ⟨[], t, by simpa using ht⟩
      · exact ⟨c :: a, b, by simp [hab]⟩
    · rintro ⟨a, b, hab⟩
      cases a with
      | nil =>
        exact Or.inl ⟨b, by simpa using hab⟩
      | cons x a' =>
        injection hab with h1 h2
        exact Or.inr ⟨a', b, h2⟩

/-- Lines without the audio-section marker leave the parser state and the
collected devices untouched once outside the audio section. -/
theorem parseAudioLines_no_marker :
    ∀ (ls : List (List Char)) (ds : List AudioDevice),
      (∀ l ∈ ls, occursIn audioMarker l = false) →
      parseAudioLines ls false ds = ds
  | [], _, _ => rfl
  | l :: ls, ds, h => by
    have h0 : occursIn audioMarker l = false :=
      h l (List.mem_cons_self l ls)
    have ih := parseAudioLines_no_marker ls ds
      (fun x hx => h x (List.mem_cons_of_mem l hx))
    simp only [parseAudioLines, h0, Bool.false_eq_true, if_false,
      Bool.not_false, ite_self, Bool.false_and, Bool.and_false]
    simpa using ih

theorem lastIdxOf_not_mem {c : Char} :
    ∀ {l : List Char}, c ∉ l → lastIdxOf l c = none
  | [], _ => rfl
  | x :: xs, h => by
    have hx : x ≠ c := fun e => h (e ▸ List.mem_cons_self x xs)
    have ht : c ∉ xs := fun e => h (List.mem_cons_of_mem x e)
    simp only [lastIdxOf, lastIdxOf_not_mem ht]
    exact if_neg hx

/-- Behaviour of `rfind` on a line whose last opening bracket precedes `tail`. -/
theorem lastIdxOf_last_bracket {tail : List Char} (htail : '[' ∉ tail) :
    ∀ (pre : List Char),
      lastIdxOf (pre ++ '[' :: tail) '[' = some pre.length
  | [] => by
    simp only [List.nil_append, lastIdxOf, lastIdxOf_not_mem htail,
      if_pos rfl]
    rfl
  | x :: pre => by
    simp only [List.cons_append, lastIdxOf, List.append_eq,
      lastIdxOf_last_bracket htail pre]
    rfl

/-- Behaviour of `find` on the text following the last opening bracket. -/
theorem firstIdxOf_close {nm : List Char} :
    ∀ {digits : List Char}, ']' ∉ digits →
      firstIdxOf (digits ++ ']' :: nm) ']' = some digits.length
  | [], _ => by
    simp [firstIdxOf]
  | d :: digits, h => by
    have hd : d ≠ ']' := fun e => h (e ▸ List.mem_cons_self d digits)
    have ht : ']' ∉ digits := fun e => h (List.mem_cons_of_mem d e)
    simp only [List.cons_append, firstIdxOf, if_neg hd, List.append_eq,
      firstIdxOf_close ht]
    rfl

/-- Evaluation of `parseU32` on a non-empty all-digit token in range. -/
theorem parseU32_digits {digits : List Char} (h4 : digits ≠ [])
    (h5 : digits.all (fun c => c.isDigit) = true)
    (h6 : digitsToNat digits < 4294967296) :
    parseU32 digits = some (digitsToNat digits) := by
  have hplus : digits.head? ≠ some '+' := by
    cases digits with
    | nil => simp
    | cons d ds =>
      have hd : d.isDigit = true := by
        have := List.all_eq_true.mp h5 d (List.mem_cons_self d ds)
        simpa using this
      simp only [List.head?]
      intro e
      rw [Option.some.inj e] at hd
      exact Bool.noConfusion hd
  simp only [parseU32, if_neg hplus, if_neg h4, h5, if_pos h6]
  rfl

/-- The device-line recognizer on a line whose last bracketed token is
`digits` followed by the raw name `nm`. -/
theorem parseDeviceLine_eq (pre digits nm : List Char)
    (h1 : '[' ∉ digits) (h2 : ']' ∉ digits) (h3 : '[' ∉ nm)
    (h4 : digits ≠ []) (h5 : digits.all (fun c => c.isDigit) = true)
    (h6 : digitsToNat digits < 4294967296) :
    parseDeviceLine (pre ++ '[' :: (digits ++ ']' :: nm))
      = if trimA nm = [] then none
        else some (digitsToNat digits, trimA nm) := by
  have htail : '[' ∉ digits ++ ']' :: nm := by
    intro hm
    rcases List.mem_append.mp hm with hm | hm
    · exact h1 hm
    · rcases List.mem_cons.mp hm with hm | hm
      · exact absurd hm (by decide)
      · exact h3 hm
  have hdrop : (pre ++ '[' :: (digits ++ ']' :: nm)).drop pre.length
      = '[' :: (digits ++ ']' :: nm) := List.drop_left pre _
  have hfirst : firstIdxOf ('[' :: (digits ++ ']' :: nm)) ']'
      = some (digits.length + 1) := by
    simp only [firstIdxOf, if_neg (by decide : ¬('[' = ']')),
      firstIdxOf_close h2]
    rfl
  have hidx : ((pre ++ '[' :: (digits ++ ']' :: nm)).drop
        (pre.length + 1)).take (digits.length + 1 - 1) = digits := by
    have hsplit : pre ++ '[' :: (digits ++ ']' :: nm)
        = (pre ++ ['[']) ++ (digits ++ ']' :: nm) := by simp
    rw [hsplit, List.drop_left' (by simp), Nat.add_sub_cancel,
      List.take_left' rfl]
  have hname : (pre ++ '[' :: (digits ++ ']' :: nm)).drop
      (pre.length + (digits.length + 1) + 1) = nm := by
    have hsplit : pre ++ '[' :: (digits ++ ']' :: nm)
        = (pre ++ '[' :: (digits ++ [']'])) ++ nm := by simp
    rw [hsplit, List.drop_left'
      (by simp only [List.length_append, List.length_cons,
        List.length_nil]; omega)]
  have hlen : (pre ++ '[' :: (digits ++ ']' :: nm)).length
      = pre.length + digits.length + 2 + nm.length := by
    simp only [List.length_append, List.length_cons]
    omega
  simp only [parseDeviceLine, lastIdxOf_last_bracket htail pre, hdrop,
    hfirst, hidx, parseU32_digits h4 h5 h6, hname, hlen]
  cases nm with
  | nil =>
    rw [if_neg (by simp only [List.length_nil]; omega)]
    simp [trimA]
  | cons x nms =>
    rw [if_pos (by simp only [List.length_cons]; omega)]

/-- The character content of one well-formed device line: a prefix, the
last `[`, the bracketed index token, the `]`, and the raw name text. -/
structure DeviceLineData where
  pre : List Char
  digits : List Char
  name : List Char

/-- Reassemble the line from its parts. -/
def lineOf (d : DeviceLineData) : List Char :=
  d.pre ++ '[' :: (d.digits ++ ']' :: d.name)

/-- Well-formedness of a device line inside the audio section: it carries
the device-line marker, carries neither section marker, its shown bracket
pair is the last bracketed token, and the token is a non-empty in-range
decimal index. -/
def GoodDeviceLine (d : DeviceLineData) : Prop :=
  occursIn audioMarker (lineOf d) = false ∧
  occursIn videoMarker (lineOf d) = false ∧
  occursIn indevMarker (lineOf d) = true ∧
  '[' ∉ d.digits ∧ ']' ∉ d.digits ∧ '[' ∉ d.name ∧
  d.digits ≠ [] ∧ d.digits.all (fun c => c.isDigit) = true ∧
  digitsToNat d.digits < 4294967296

instance (d : DeviceLineData) : Decidable (GoodDeviceLine d) := by
  unfold GoodDeviceLine
  infer_instance

/-- The device the parser extracts from a well-formed line: index is the
numeric value of the bracketed token, name is the trimmed trailing text;
an empty trimmed name yields no device. -/
def deviceOf (d : DeviceLineData) : Option AudioDevice :=
  if trimA d.name = [] then none
  else some ⟨digitsToNat d.digits, trimA d.name⟩

/-- One parsing step on a device-marker line inside the audio section. -/
theorem parseAudioLines_audio_step (line : List Char)
    (rest : List (List Char)) (devices : List AudioDevice)
    (hna : occursIn audioMarker line = false)
    (hnv : occursIn videoMarker line = false)
    (hin : occursIn indevMarker line = true)
    (hbr : containsChar line '[' = true) :
    parseAudioLines (line :: rest) true devices
      = parseAudioLines rest true
          (match parseDeviceLine line with
           | some (index, name) => devices ++ [⟨index, name⟩]
           | none => devices) := by
  simp [parseAudioLines, hna, hnv, hin, hbr]

/-- One parsing step on the video-section marker line. -/
theorem parseAudioLines_video_step (line : List Char)
    (rest : List (List Char)) (devices : List AudioDevice)
    (hna : occursIn audioMarker line = false)
    (hv : occursIn videoMarker line = true) :
    parseAudioLines (line :: rest) true devices
      = parseAudioLines rest false devices := by
  simp [parseAudioLines, hna, hv]

/-- One parsing step on the audio-section marker line. -/
theorem parseAudioLines_marker_step (line : List Char)
    (rest : List (List Char)) (devices : List AudioDevice)
    (b : Bool) (ha : occursIn audioMarker line = true) :
    parseAudioLines (line :: rest) b devices
      = parseAudioLines rest true devices := by
  simp [parseAudioLines, ha]

/-- A well-formed device line contains a `[`. -/
theorem containsChar_lineOf (d : DeviceLineData) :
    containsChar (lineOf d) '[' = true := by
  simp [containsChar, lineOf]

/-- Processing a run of well-formed device lines inside the audio section
appends exactly their extracted devices, in order. -/
theorem parseAudioLines_device_block :
    ∀ (items : List DeviceLineData) (rest : List (List Char))
      (devices : List AudioDevice),
      (∀ d ∈ items, GoodDeviceLine d) →
      parseAudioLines (items.map lineOf ++ rest) true devices
        = parseAudioLines rest true (devices ++ items.filterMap deviceOf)
  | [], rest, devices, _ => by simp
  | d :: items, rest, devices, h => by
    obtain ⟨hna, hnv, hin, h1, h2, h3, h4, h5, h6⟩ :=
      h d (List.mem_cons_self d items)
    have ih := fun dv => parseAudioLines_device_block items rest dv
      (fun x hx => h x (List.mem_cons_of_mem d hx))
    simp only [List.map_cons, List.cons_append,
      parseAudioLines_audio_step (lineOf d) _ _ hna hnv hin
        (containsChar_lineOf d)]
    rw [show parseDeviceLine (lineOf d)
        = if trimA d.name = [] then none
          else some (digitsToNat d.digits, trimA d.name) from
      parseDeviceLine_eq d.pre d.digits d.name h1 h2 h3 h4 h5 h6]
    by_cases he : trimA d.name = []
    · rw [if_pos he]
      refine (ih devices).trans ?_
      simp [List.filterMap_cons, deviceOf, he]
    · rw [if_neg he]
      refine (ih (devices
        ++ [⟨digitsToNat d.digits, trimA d.name⟩])).trans ?_
      simp [List.filterMap_cons, deviceOf, he]

/-- Claim C7: a transcript made of the audio-section marker line, then
well-formed audio device lines, then the video-section marker line and
video device lines, parses to exactly the audio devices in encounter
order; each index is the numeric content of the line's last bracketed
token, each name is the trimmed text after it, and lines whose trimmed
name is empty contribute no device. -/
theorem c7_parse_wellformed_transcript (mline vline : List Char)
    (items : List DeviceLineData) (vlines : List (List Char))
    (hm : occursIn audioMarker mline = true)
    (hv1 : occursIn videoMarker vline = true)
    (hv2 : occursIn audioMarker vline = false)
    (hitems : ∀ d ∈ items, GoodDeviceLine d)
    (hvl : ∀ l ∈ vlines, occursIn audioMarker l = false) :
    parseAudioLines
        (mline :: (items.map lineOf ++ (vline :: vlines))) false []
      = items.filterMap deviceOf := by
  rw [parseAudioLines_marker_step mline _ [] false hm,
    parseAudioLines_device_block items _ [] hitems,
    parseAudioLines_video_step vline vlines _ hv2 hv1,
    parseAudioLines_no_marker vlines _ hvl]
  simp

/-- Witness for C7: the documented three-audio-device transcript followed
by a video section with two device lines parses to exactly those three
devices. -/
theorem c7_parse_wellformed_transcript_witness :
    parseAudioLines
      ("[AVFoundation indev @ 0x7fa] AVFoundation audio devices:".toList
        :: ([⟨"[AVFoundation indev @ 0x7fa] ".toList, ['0'],
              " MacBook Air Microphone".toList⟩,
             ⟨"[AVFoundation indev @ 0x7fa] ".toList, ['1'],
              " External Mic".toList⟩,
             ⟨"[AVFoundation indev @ 0x7fa] ".toList, ['2'],
              " Line In".toList⟩].map lineOf
          ++ ("[AVFoundation indev @ 0x7fa] AVFoundation video devices:".toList
            :: ["[AVFoundation indev @ 0x7fa] [0] FaceTime HD Camera".toList,
                "[AVFoundation indev @ 0x7fa] [1] Desk View Camera".toList])))
      false []
      = [⟨0, "MacBook Air Microphone".toList⟩,
         ⟨1, "External Mic".toList⟩,
         ⟨2, "Line In".toList⟩] := by
  have h := c7_parse_wellformed_transcript
    "[AVFoundation indev @ 0x7fa] AVFoundation audio devices:".toList
    "[AVFoundation indev @ 0x7fa] AVFoundation video devices:".toList
    [⟨"[AVFoundation indev @ 0x7fa] ".toList, ['0'],
      " MacBook Air Microphone".toList⟩,
     ⟨"[AVFoundation indev @ 0x7fa] ".toList, ['1'],
      " External Mic".toList⟩,
     ⟨"[AVFoundation indev @ 0x7fa] ".toList, ['2'],
      " Line In".toList⟩]
    ["[AVFoundation indev @ 0x7fa] [0] FaceTime HD Camera".toList,
     "[AVFoundation indev @ 0x7fa] [1] Desk View Camera".toList]
    (by decide) (by decide) (by decide) (by decide) (by decide)
  exact h.trans (by decide)

/-- Claim C10: inside the audio section a line carrying a well-formed
bracketed index and a non-empty trimmed name, but lacking the
`[AVFoundation indev` substring, parses as a device yet is ignored: it
contributes no device and leaves the parser state unchanged. -/
theorem c10_indev_marker_required (d : DeviceLineData)
    (rest : List (List Char)) (devices : List AudioDevice)
    (hna : occursIn audioMarker (lineOf d) = false)
    (hnv : occursIn videoMarker (lineOf d) = false)
    (hno : occursIn indevMarker (lineOf d) = false)
    (h1 : '[' ∉ d.digits) (h2 : ']' ∉ d.digits) (h3 : '[' ∉ d.name)
    (h4 : d.digits ≠ []) (h5 : d.digits.all (fun c => c.isDigit) = true)
    (h6 : digitsToNat d.digits < 4294967296)
    (h7 : trimA d.name ≠ []) :
    parseDeviceLine (lineOf d)
      = some (digitsToNat d.digits, trimA d.name) ∧
    parseAudioLines (lineOf d :: rest) true devices
      = parseAudioLines rest true devices := by
  constructor
  · rw [show parseDeviceLine (lineOf d)
        = if trimA d.name = [] then none
          else some (digitsToNat d.digits, trimA d.name) from
      parseDeviceLine_eq d.pre d.digits d.name h1 h2 h3 h4 h5 h6]
    exact if_neg h7
  · simp [parseAudioLines, hna, hnv, hno]

/-- Witness for C10: the line `[3] Blue Microphone` has a well-formed
index token and a non-empty name, yet inside the audio section it is
ignored. -/
theorem c10_indev_marker_required_witness :
    parseDeviceLine (lineOf ⟨[], ['3'], " Blue Microphone".toList⟩)
      = some (3, "Blue Microphone".toList) ∧
    parseAudioLines [lineOf ⟨[], ['3'], " Blue Microphone".toList⟩]
      true [] = [] := by
  have h := c10_indev_marker_required ⟨[], ['3'], " Blue Microphone".toList⟩
    [] [] (by decide) (by decide) (by decide) (by decide) (by decide)
    (by decide) (by decide) (by decide) (by decide) (by decide)
  exact ⟨h.1.trans (by decide), h.2⟩

theorem splitNl_ne_nil : ∀ s : List Char, splitNl s ≠ []
  | [] => by simp [splitNl]
  | c :: rest => by
    cases hsp : splitNl rest with
    | nil => exact absurd hsp (splitNl_ne_nil rest)
    | cons p ps =>
      rw [show splitNl (c :: rest)
          = if c = '\n' then [] :: p :: ps else (c :: p) :: ps from by
        simp only [splitNl, hsp]]
      by_cases hc : c = '\n'
      · rw [if_pos hc]
        simp
      · rw [if_neg hc]
        simp

/-- The first piece of the newline split is a prefix of the input. -/
theorem splitNl_head_decomp :
    ∀ (s : List Char) (q : List Char) (qs : List (List Char)),
      splitNl s = q :: qs → ∃ b, s = q ++ b
  | [], q, qs, h => by
    simp only [splitNl] at h
    injection h with h1
    exact ⟨[], by simp [← h1]⟩
  | c :: rest, q, qs, h => by
    cases hsp : splitNl rest with
    | nil => exact absurd hsp (splitNl_ne_nil rest)
    | cons p ps =>
      rw [show splitNl (c :: rest)
          = if c = '\n' then [] :: p :: ps else (c :: p) :: ps from by
        simp only [splitNl, hsp]] at h
      by_cases hc : c = '\n'
      · rw [if_pos hc] at h
        injection h with h1
        exact ⟨c :: rest, by simp [← h1]⟩
      · rw [if_neg hc] at h
        injection h with h1 h2
        obtain ⟨b, hb⟩ := splitNl_head_decomp rest p ps hsp
        exact ⟨b, by simp [← h1, hb]⟩

/-- Every piece of the newline split occurs contiguously in the input. -/
theorem splitNl_pieces :
    ∀ (s : List Char), ∀ p ∈ splitNl s, ∃ a b, s = a ++ p ++ b
  | [], p, hp => by
    simp only [splitNl, List.mem_singleton] at hp
    exact ⟨[], [], by simp [hp]⟩
  | c :: rest, p, hp => by
    cases hsp : splitNl rest with
    | nil => exact absurd hsp (splitNl_ne_nil rest)
    | cons q qs =>
      rw [show splitNl (c :: rest)
          = if c = '\n' then [] :: q :: qs else (c :: q) :: qs from by
        simp only [splitNl, hsp]] at hp
      by_cases hc : c = '\n'
      · rw [if_pos hc] at hp
        rcases List.mem_cons.mp hp with hp | hp
        · exact ⟨[], c :: rest, by simp [hp]⟩
        · obtain ⟨a, b, hab⟩ := splitNl_pieces rest p (hsp ▸ hp)
          exact ⟨c :: a, b, by simp [hab]⟩
      · rw [if_neg hc] at hp
        rcases List.mem_cons.mp hp with hp | hp
        · obtain ⟨b, hb⟩ := splitNl_head_decomp rest q qs hsp
          exact ⟨[], b, by simp [hp, hb]⟩
        · obtain ⟨a, b, hab⟩ := splitNl_pieces rest p
            (hsp ▸ List.mem_cons_of_mem q hp)
          exact ⟨c :: a, b, by simp [hab]⟩

/-- Stripping a trailing carriage return leaves a prefix. -/
theorem stripCr_decomp (l : List Char) : ∃ t, l = stripCr l ++ t := by
  unfold stripCr
  by_cases h : l.getLast? = some '\r'
  · rw [if_pos h]
    cases hl : l with
    | nil =>
      rw [hl] at h
      exact Option.noConfusion h
    | cons x xs =>
      rw [← hl]
      have hne : l ≠ [] := by simp [hl]
      exact ⟨[l.getLast hne], (List.dropLast_append_getLast hne).symm⟩
  · rw [if_neg h]
    exact ⟨[], by simp⟩

/-- Every line produced by the `lines()` model occurs contiguously in the
transcript. -/
theorem mem_rustLines_decomp (s : List Char) (line : List Char)
    (h : line ∈ rustLines s) : ∃ a b, s = a ++ line ++ b := by
  simp only [rustLines, List.mem_map] at h
  obtain ⟨p, hp, hline⟩ := h
  have hpmem : p ∈ splitNl s := by
    by_cases hlast : (splitNl s).getLast? = some []
    · rw [if_pos hlast] at hp
      exact List.dropLast_subset _ hp
    · rw [if_neg hlast] at hp
      exact hp
  obtain ⟨a, b, hab⟩ := splitNl_pieces s p hpmem
  obtain ⟨t, ht⟩ := stripCr_decomp p
  refine ⟨a, t ++ b, ?_⟩
  rw [hab, ht, hline]
  simp

/-- Claim C8: once the tool probe and the listing run succeed the parse
never fails — it returns a device list for every transcript — and a
transcript with no audio-section marker yields the empty list, not a
failure. -/
theorem c8_parser_total_and_tolerant (env : EnumEnv)
    (stderrChars : List Char) (hf : env.ffmpegAvailable = true)
    (hr : env.runResult = .ok stderrChars) :
    (∃ ds, list_audio_devices env = .ok ds) ∧
    (occursIn audioMarker stderrChars = false →
      list_audio_devices env = .ok ⟨[]⟩) := by
  constructor
  · exact ⟨⟨parseAudioLines (rustLines stderrChars) false []⟩,
      by simp [list_audio_devices, hf, hr]⟩
  · intro hno
    have hlines : ∀ l ∈ rustLines stderrChars,
        occursIn audioMarker l = false := by
      intro l hl
      by_contra hcon
      rw [Bool.not_eq_false] at hcon
      obtain ⟨x, y, hxy⟩ := (occursIn_iff audioMarker l).mp hcon
      obtain ⟨a, b, hab⟩ := mem_rustLines_decomp stderrChars l hl
      have hocc : occursIn audioMarker stderrChars = true :=
        (occursIn_iff audioMarker stderrChars).mpr
          ⟨a ++ x, y ++ b, by rw [hab, hxy]; simp⟩
      rw [hno] at hocc
      exact Bool.noConfusion hocc
    simp [list_audio_devices, hf, hr,
      parseAudioLines_no_marker _ _ hlines]

/-- Witness for C8: a transcript with no marker at all yields a
successful empty device list. -/
theorem c8_parser_total_and_tolerant_witness :
    occursIn audioMarker ("hello\nworld".toList) = false ∧
    list_audio_devices ⟨true, .ok "hello\nworld".toList⟩ = .ok ⟨[]⟩ :=
  ⟨by decide,
   (c8_parser_total_and_tolerant ⟨true, .ok "hello\nworld".toList⟩
      "hello\nworld".toList rfl rfl).2 (by decide)⟩

end ClipForge
